import Mathlib

/-!
Verification of the FLOOD_SAFE_GUARD risk-and-routing engine.

The definitions below are a shallow embedding of the core functions of
`src/server/api/floodService.ts` (the fuller variant of the flood service,
including route composition, appears verbatim in `src/unnamed/part_004`) and of
the client-side classifier in
`src/client/src/components/ui/leaflet-map.jsx`.

JavaScript numbers are modelled as real numbers.  The external persistence
layer (`storage.getRiverLevelsByArea`, `storage.getRoadsByArea`) is modelled by
passing the query result as an explicit list argument.
-/

namespace FloodSafeGuard

noncomputable section

open scoped Classical

/-- The closed set of risk levels (`RISK_LEVELS` in the source). -/
inductive RiskLevel
  | HIGH
  | MEDIUM
  | LOW
deriving DecidableEq

/-- The closed set of road statuses (`ROAD_STATUS` in the source). -/
inductive RoadStatus
  | UNDER_FLOOD
  | NEAR_FLOOD
  | SAFE
deriving DecidableEq

/-- Severity order on risk levels: LOW < MEDIUM < HIGH. -/
def riskRank : RiskLevel → ℕ
  | .LOW => 0
  | .MEDIUM => 1
  | .HIGH => 2

/-- Danger order on road statuses: SAFE < NEAR_FLOOD < UNDER_FLOOD. -/
def statusRank : RoadStatus → ℕ
  | .SAFE => 0
  | .NEAR_FLOOD => 1
  | .UNDER_FLOOD => 2

/-- JavaScript `x || d` on an optional number: `undefined`/`null` and `0` are
falsy, every other number is returned unchanged. -/
def jsOr (x : Option ℝ) (d : ℝ) : ℝ :=
  match x with
  | none => d
  | some v => if v = 0 then d else v

/-- `Math.atan2 y x`, expressed through the complex argument. -/
def atan2 (y x : ℝ) : ℝ := Complex.arg ⟨x, y⟩

/-- The intermediate quantity `a` of the haversine formula in `floodService.ts`:
`a = sin²(dlat/2) + cos(lat1Rad)·cos(lat2Rad)·sin²(dlon/2)` after converting
degrees to radians. -/
def haversineA (lat1 lon1 lat2 lon2 : ℝ) : ℝ :=
  Real.sin ((lat2 * Real.pi / 180 - lat1 * Real.pi / 180) / 2) ^ 2 +
    Real.cos (lat1 * Real.pi / 180) * Real.cos (lat2 * Real.pi / 180) *
      Real.sin ((lon2 * Real.pi / 180 - lon1 * Real.pi / 180) / 2) ^ 2

/-- `haversine(lat1, lon1, lat2, lon2)` from `floodService.ts`: earth radius
`R = 6371.0` km, `c = 2·atan2(√a, √(1−a))`, result `R·c`. -/
def haversine (lat1 lon1 lat2 lon2 : ℝ) : ℝ :=
  6371.0 * (2 * atan2 (Real.sqrt (haversineA lat1 lon1 lat2 lon2))
    (Real.sqrt (1 - haversineA lat1 lon1 lat2 lon2)))

/-- A river-level reading (`riverLevels` rows): position, current water level,
optional critical threshold. -/
structure RiverReading where
  latitude : ℝ
  longitude : ℝ
  level : ℝ
  criticalThreshold : Option ℝ

/-- A road segment as returned by `storage.getRoadsByArea`. -/
structure Road where
  id : ℤ
  name : String
  status : RoadStatus
  startLat : ℝ
  startLong : ℝ
  endLat : ℝ
  endLong : ℝ

/-- A route segment as produced by `getSafeRoutes` (part_004 variant). -/
structure RouteSegment where
  id : ℤ
  name : String
  status : RoadStatus
  path : List (ℝ × ℝ)

/-- Server-side rule table `predictFloodRisk(waterLevel, criticalThreshold,
distanceToRiver)` from `src/server/api/floodService.ts` lines 34-47.  Note that
this variant has no distance override. -/
def predictFloodRisk (waterLevel criticalThreshold distanceToRiver : ℝ) : RiskLevel :=
  if waterLevel ≥ criticalThreshold + 5 then RiskLevel.HIGH
  else if waterLevel ≥ criticalThreshold then RiskLevel.HIGH
  else if waterLevel ≥ criticalThreshold - 5 then RiskLevel.MEDIUM
  else if distanceToRiver < 0.5 then RiskLevel.MEDIUM
  else RiskLevel.LOW

/-- Client-side classifier `assessFloodRiskLevel` from
`src/client/src/components/ui/leaflet-map.jsx` lines 668-694: threshold
defaults to 80 through JavaScript `||`, and a distance override forces LOW for
distances above 5 km before the rule table runs. -/
def assessFloodRiskLevel (waterLevel : ℝ) (criticalThreshold : Option ℝ)
    (distanceToRiver : ℝ) : RiskLevel :=
  let threshold := jsOr criticalThreshold 80
  if distanceToRiver > 5 then RiskLevel.LOW
  else if waterLevel ≥ threshold + 5 then RiskLevel.HIGH
  else if waterLevel ≥ threshold then RiskLevel.HIGH
  else if waterLevel ≥ threshold - 5 then RiskLevel.MEDIUM
  else if distanceToRiver < 0.5 then RiskLevel.MEDIUM
  else RiskLevel.LOW

/-- The collapsed decision table stated by the spec ("the +5 branch and the
plain branch are redundant and collapse to the same outcome"): HIGH when
`waterLevel ≥ criticalThreshold`, then MEDIUM, MEDIUM, LOW. -/
def riskTableCollapsed (waterLevel criticalThreshold distanceToRiver : ℝ) : RiskLevel :=
  if waterLevel ≥ criticalThreshold then RiskLevel.HIGH
  else if waterLevel ≥ criticalThreshold - 5 then RiskLevel.MEDIUM
  else if distanceToRiver < 0.5 then RiskLevel.MEDIUM
  else RiskLevel.LOW

/-- C2: the extra `waterLevel ≥ criticalThreshold + 5` branch of
`predictFloodRisk` is redundant: the function agrees everywhere with the
three-branch collapsed table, evaluated top-to-bottom, first match wins. -/
theorem predictFloodRisk_collapsed (waterLevel criticalThreshold distanceToRiver : ℝ) :
    predictFloodRisk waterLevel criticalThreshold distanceToRiver =
      riskTableCollapsed waterLevel criticalThreshold distanceToRiver := by
  unfold predictFloodRisk riskTableCollapsed
  split_ifs <;> first | rfl | (exfalso; linarith)

/-- C1 counterexample: the server classifier `predictFloodRisk` applies no
distance override, while the client classifier `assessFloodRiskLevel` does,
so the two disagree at water level 100, threshold 50, distance 6 km; they also
disagree at a non-null zero threshold because the client replaces a falsy
threshold with the default 80. -/
theorem predictFloodRisk_client_divergence_cex :
    predictFloodRisk 100 50 6 = RiskLevel.HIGH ∧
    assessFloodRiskLevel 100 (some 50) 6 = RiskLevel.LOW ∧
    predictFloodRisk 100 50 6 ≠ assessFloodRiskLevel 100 (some 50) 6 ∧
    predictFloodRisk 78 0 1 ≠ assessFloodRiskLevel 78 (some 0) 1 := by
  have h1 : predictFloodRisk 100 50 6 = RiskLevel.HIGH := by
    unfold predictFloodRisk; norm_num
  have h2 : assessFloodRiskLevel 100 (some 50) 6 = RiskLevel.LOW := by
    unfold assessFloodRiskLevel jsOr; norm_num
  have h3 : predictFloodRisk 78 0 1 = RiskLevel.HIGH := by
    unfold predictFloodRisk; norm_num
  have h4 : assessFloodRiskLevel 78 (some 0) 1 = RiskLevel.MEDIUM := by
    unfold assessFloodRiskLevel jsOr; norm_num
  exact ⟨h1, h2, by rw [h1, h2]; decide, by rw [h3, h4]; decide⟩

/-- C1 amended: with the distance at most 5 km (so that the client's
distance override does not fire) and a non-zero critical threshold (so that
the client's `|| 80` default does not fire), the server-side and client-side
classifiers agree. -/
theorem predictFloodRisk_client_agree_below_override
    (waterLevel criticalThreshold distanceToRiver : ℝ)
    (ht : criticalThreshold ≠ 0) (hd : distanceToRiver ≤ 5) :
    predictFloodRisk waterLevel criticalThreshold distanceToRiver =
      assessFloodRiskLevel waterLevel (some criticalThreshold) distanceToRiver := by
  unfold predictFloodRisk assessFloodRiskLevel jsOr
  dsimp only
  rw [if_neg ht, if_neg (not_lt.mpr hd)]

/-- Witness for the amended C1 theorem at water level 10, threshold 50,
distance 1 km. -/
theorem predictFloodRisk_client_agree_below_override_witness :
    (50 : ℝ) ≠ 0 ∧ (1 : ℝ) ≤ 5 ∧
      predictFloodRisk 10 50 1 = assessFloodRiskLevel 10 (some 50) 1 :=
  ⟨by norm_num, by norm_num,
    predictFloodRisk_client_agree_below_override 10 50 1 (by norm_num) (by norm_num)⟩

/-- C10: with threshold and distance fixed, raising the water level never
lowers the risk reported by `predictFloodRisk`, under LOW < MEDIUM < HIGH. -/
theorem predictFloodRisk_monotone (criticalThreshold distanceToRiver w1 w2 : ℝ)
    (h : w1 ≤ w2) :
    riskRank (predictFloodRisk w1 criticalThreshold distanceToRiver) ≤
      riskRank (predictFloodRisk w2 criticalThreshold distanceToRiver) := by
  unfold predictFloodRisk
  split_ifs <;> simp [riskRank] <;> linarith

/-- Witness for the monotonicity theorem at water levels 1 ≤ 2, threshold 0,
distance 0. -/
theorem predictFloodRisk_monotone_witness :
    (1 : ℝ) ≤ 2 ∧
      riskRank (predictFloodRisk 1 0 0) ≤ riskRank (predictFloodRisk 2 0 0) :=
  ⟨by norm_num, predictFloodRisk_monotone 0 0 1 2 (by norm_num)⟩

lemma atan2_zero_one : atan2 0 1 = 0 := by
  unfold atan2
  have h : (⟨1, 0⟩ : ℂ) = 1 := by
    apply Complex.ext <;> simp
  rw [h, Complex.arg_one]

lemma haversineA_self (lat lon : ℝ) : haversineA lat lon lat lon = 0 := by
  unfold haversineA
  simp

lemma haversine_self (lat lon : ℝ) : haversine lat lon lat lon = 0 := by
  unfold haversine
  rw [haversineA_self]
  simp [atan2_zero_one]

lemma haversineA_comm (lat1 lon1 lat2 lon2 : ℝ) :
    haversineA lat1 lon1 lat2 lon2 = haversineA lat2 lon2 lat1 lon1 := by
  unfold haversineA
  have h : ∀ x y : ℝ, Real.sin ((x - y) / 2) ^ 2 = Real.sin ((y - x) / 2) ^ 2 := by
    intro x y
    rw [show (x - y) / 2 = -((y - x) / 2) by ring, Real.sin_neg]
    ring
  rw [h (lat2 * Real.pi / 180) (lat1 * Real.pi / 180),
    h (lon2 * Real.pi / 180) (lon1 * Real.pi / 180)]
  ring

lemma haversine_comm (lat1 lon1 lat2 lon2 : ℝ) :
    haversine lat1 lon1 lat2 lon2 = haversine lat2 lon2 lat1 lon1 := by
  unfold haversine
  rw [haversineA_comm]

/-- C9: the haversine distance from a point to itself is zero, and haversine
is symmetric in its two coordinate arguments. -/
theorem haversine_self_symm (lat lon lat1 lon1 lat2 lon2 : ℝ) :
    haversine lat lon lat lon = 0 ∧
      haversine lat1 lon1 lat2 lon2 = haversine lat2 lon2 lat1 lon1 :=
  ⟨haversine_self lat lon, haversine_comm lat1 lon1 lat2 lon2⟩

/-- The UNDER_FLOOD test of `assessRoadStatus`: the reading is within 0.2 km
of the road start or end and its level exceeds `criticalThreshold || 0`. -/
def underCond (startLat startLong endLat endLong : ℝ) (river : RiverReading) : Prop :=
  (haversine startLat startLong river.latitude river.longitude < 0.2 ∨
      haversine endLat endLong river.latitude river.longitude < 0.2) ∧
    river.level > jsOr river.criticalThreshold 0

/-- The NEAR_FLOOD test of `assessRoadStatus`: the reading is within 0.5 km of
the road start or end and its level exceeds `(criticalThreshold || 0) - 5`. -/
def nearCond (startLat startLong endLat endLong : ℝ) (river : RiverReading) : Prop :=
  (haversine startLat startLong river.latitude river.longitude < 0.5 ∨
      haversine endLat endLong river.latitude river.longitude < 0.5) ∧
    river.level > jsOr river.criticalThreshold 0 - 5

/-- The `for (const river of allRiverLevels)` loop of `assessRoadStatus`:
each reading is checked for the UNDER_FLOOD condition and then for the
NEAR_FLOOD condition, returning immediately on the first hit. -/
def roadStatusLoop (startLat startLong endLat endLong : ℝ) :
    List RiverReading → RoadStatus
  | [] => RoadStatus.SAFE
  | river :: rest =>
    if underCond startLat startLong endLat endLong river then RoadStatus.UNDER_FLOOD
    else if nearCond startLat startLong endLat endLong river then RoadStatus.NEAR_FLOOD
    else roadStatusLoop startLat startLong endLat endLong rest

/-- `assessRoadStatus` from `floodService.ts` lines 110-143.  The parameter
`allRiverLevels` models the concatenation
`[...riverLevelsStart, ...riverLevelsEnd]` of the two area queries. -/
def assessRoadStatus (startLat startLong endLat endLong : ℝ)
    (allRiverLevels : List RiverReading) : RoadStatus :=
  if allRiverLevels.isEmpty then RoadStatus.SAFE
  else roadStatusLoop startLat startLong endLat endLong allRiverLevels

/-- The road-status procedure as described by claim C3 and the spec's
"First reading satisfying ... yields UNDER_FLOOD, returned immediately.
Otherwise first reading satisfying ... yields NEAR_FLOOD": a full pass for
the UNDER_FLOOD condition before any NEAR_FLOOD verdict. -/
def roadStatusTwoPass (startLat startLong endLat endLong : ℝ)
    (allRiverLevels : List RiverReading) : RoadStatus :=
  if ∃ river ∈ allRiverLevels, underCond startLat startLong endLat endLong river then
    RoadStatus.UNDER_FLOOD
  else if ∃ river ∈ allRiverLevels, nearCond startLat startLong endLat endLong river then
    RoadStatus.NEAR_FLOOD
  else RoadStatus.SAFE

lemma underCond_nearCond {startLat startLong endLat endLong : ℝ} {river : RiverReading}
    (h : underCond startLat startLong endLat endLong river) :
    nearCond startLat startLong endLat endLong river := by
  obtain ⟨hdist, hlevel⟩ := h
  refine ⟨?_, by linarith⟩
  rcases hdist with h1 | h2
  · exact Or.inl (by linarith)
  · exact Or.inr (by linarith)

lemma assessRoadStatus_eq_loop (startLat startLong endLat endLong : ℝ)
    (allRiverLevels : List RiverReading) :
    assessRoadStatus startLat startLong endLat endLong allRiverLevels =
      roadStatusLoop startLat startLong endLat endLong allRiverLevels := by
  cases allRiverLevels with
  | nil => rfl
  | cons river rest => rfl

lemma roadStatusLoop_safe_iff (startLat startLong endLat endLong : ℝ)
    (rs : List RiverReading) :
    roadStatusLoop startLat startLong endLat endLong rs = RoadStatus.SAFE ↔
      ∀ river ∈ rs, ¬ nearCond startLat startLong endLat endLong river := by
  induction rs with
  | nil => simp [roadStatusLoop]
  | cons river rest ih =>
    unfold roadStatusLoop
    by_cases hu : underCond startLat startLong endLat endLong river
    · rw [if_pos hu]
      constructor
      · intro h; exact absurd h (by decide)
      · intro h
        exact absurd (underCond_nearCond hu) (h river (List.mem_cons_self river rest))
    · rw [if_neg hu]
      by_cases hn : nearCond startLat startLong endLat endLong river
      · rw [if_pos hn]
        constructor
        · intro h; exact absurd h (by decide)
        · intro h; exact absurd hn (h river (List.mem_cons_self river rest))
      · rw [if_neg hn]
        rw [ih]
        simp [List.forall_mem_cons, hn]

lemma roadStatusLoop_first_trigger (startLat startLong endLat endLong : ℝ) :
    ∀ (pre : List RiverReading) (river : RiverReading) (post : List RiverReading),
      (∀ r ∈ pre, ¬ nearCond startLat startLong endLat endLong r) →
      nearCond startLat startLong endLat endLong river →
      roadStatusLoop startLat startLong endLat endLong (pre ++ river :: post) =
        if underCond startLat startLong endLat endLong river then RoadStatus.UNDER_FLOOD
        else RoadStatus.NEAR_FLOOD := by
  intro pre
  induction pre with
  | nil =>
    intro river post hpre hr
    simp only [List.nil_append]
    unfold roadStatusLoop
    by_cases hu : underCond startLat startLong endLat endLong river
    · rw [if_pos hu, if_pos hu]
    · rw [if_neg hu, if_pos hr, if_neg hu]
  | cons p pre ih =>
    intro river post hpre hr
    simp only [List.cons_append]
    unfold roadStatusLoop
    have hp : ¬ nearCond startLat startLong endLat endLong p :=
      hpre p (List.mem_cons_self p pre)
    have hpu : ¬ underCond startLat startLong endLat endLong p :=
      fun h => hp (underCond_nearCond h)
    rw [if_neg hpu, if_neg hp]
    exact ih river post (fun r hrr => hpre r (List.mem_cons_of_mem p hrr)) hr

/-- C3 counterexample: with both readings at the road's (degenerate) start and
end point, the reading with level 48 and threshold 50 passes only the
NEAR_FLOOD test while the later reading with level 100 passes the UNDER_FLOOD
test.  The two-pass procedure of the claim reports UNDER_FLOOD, but
`assessRoadStatus` returns NEAR_FLOOD: the per-reading loop lets an earlier
NEAR-qualifying reading shadow a later UNDER-qualifying one. -/
theorem assessRoadStatus_two_pass_cex :
    assessRoadStatus 0 0 0 0
        [⟨0, 0, 48, some 50⟩, ⟨0, 0, 100, some 50⟩] = RoadStatus.NEAR_FLOOD ∧
    roadStatusTwoPass 0 0 0 0
        [⟨0, 0, 48, some 50⟩, ⟨0, 0, 100, some 50⟩] = RoadStatus.UNDER_FLOOD ∧
    RoadStatus.NEAR_FLOOD ≠ RoadStatus.UNDER_FLOOD := by
  have hAu : ¬ underCond 0 0 0 0 ⟨0, 0, 48, some 50⟩ := by
    rintro ⟨-, hlevel⟩
    rw [show jsOr (some 50) 0 = 50 by norm_num [jsOr]] at hlevel
    norm_num at hlevel
  have hAn : nearCond 0 0 0 0 ⟨0, 0, 48, some 50⟩ := by
    refine ⟨Or.inl ?_, ?_⟩
    · rw [haversine_self]; norm_num
    · rw [show jsOr (some 50) 0 = 50 by norm_num [jsOr]]; norm_num
  have hBu : underCond 0 0 0 0 ⟨0, 0, 100, some 50⟩ := by
    refine ⟨Or.inl ?_, ?_⟩
    · rw [haversine_self]; norm_num
    · rw [show jsOr (some 50) 0 = 50 by norm_num [jsOr]]; norm_num
  refine ⟨?_, ?_, by decide⟩
  · rw [assessRoadStatus_eq_loop]
    unfold roadStatusLoop
    rw [if_neg hAu, if_pos hAn]
  · unfold roadStatusTwoPass
    rw [if_pos ⟨⟨0, 0, 100, some 50⟩, by simp, hBu⟩]

/-- C3 amended: `assessRoadStatus` is determined by the first reading that
passes the NEAR_FLOOD test (a superset of the UNDER_FLOOD test): it returns
UNDER_FLOOD if that reading also passes the UNDER_FLOOD test and NEAR_FLOOD
otherwise, and SAFE exactly when no reading passes the NEAR_FLOOD test
(in particular on the empty list). -/
theorem assessRoadStatus_first_match (startLat startLong endLat endLong : ℝ)
    (rs : List RiverReading) :
    (assessRoadStatus startLat startLong endLat endLong rs = RoadStatus.SAFE ↔
      ∀ river ∈ rs, ¬ nearCond startLat startLong endLat endLong river) ∧
    (∀ (pre : List RiverReading) (river : RiverReading) (post : List RiverReading),
      rs = pre ++ river :: post →
      (∀ r ∈ pre, ¬ nearCond startLat startLong endLat endLong r) →
      nearCond startLat startLong endLat endLong river →
      assessRoadStatus startLat startLong endLat endLong rs =
        if underCond startLat startLong endLat endLong river then RoadStatus.UNDER_FLOOD
        else RoadStatus.NEAR_FLOOD) := by
  constructor
  · rw [assessRoadStatus_eq_loop]
    exact roadStatusLoop_safe_iff startLat startLong endLat endLong rs
  · intro pre river post hdec hpre hr
    rw [assessRoadStatus_eq_loop, hdec]
    exact roadStatusLoop_first_trigger startLat startLong endLat endLong pre river post hpre hr

/-- Witness for the amended C3 theorem: a non-qualifying reading (level 40,
threshold 50) followed by an UNDER-qualifying reading (level 100) yields
UNDER_FLOOD. -/
theorem assessRoadStatus_first_match_witness :
    assessRoadStatus 0 0 0 0
        [⟨0, 0, 40, some 50⟩, ⟨0, 0, 100, some 50⟩] = RoadStatus.UNDER_FLOOD := by
  have hBu : underCond 0 0 0 0 ⟨0, 0, 100, some 50⟩ := by
    refine ⟨Or.inl ?_, ?_⟩
    · rw [haversine_self]; norm_num
    · rw [show jsOr (some 50) 0 = 50 by norm_num [jsOr]]; norm_num
  have h := (assessRoadStatus_first_match 0 0 0 0
      [⟨0, 0, 40, some 50⟩, ⟨0, 0, 100, some 50⟩]).2
      [⟨0, 0, 40, some 50⟩] ⟨0, 0, 100, some 50⟩ [] rfl
      (by
        intro r hrr
        rw [List.mem_singleton] at hrr
        subst hrr
        rintro ⟨-, hlevel⟩
        rw [show jsOr (some 50) 0 = 50 by norm_num [jsOr]] at hlevel
        norm_num at hlevel)
      (by
        refine ⟨Or.inl ?_, ?_⟩
        · rw [haversine_self]; norm_num
        · rw [show jsOr (some 50) 0 = 50 by norm_num [jsOr]]; norm_num)
  rw [h, if_pos hBu]

/-- C5 counterexample: permuting the reading list changes the road status.
With both readings at the road's endpoints, the order [level 47, level 99]
yields NEAR_FLOOD while the order [level 99, level 47] yields UNDER_FLOOD,
although the two lists are permutations of each other. -/
theorem assessRoadStatus_perm_cex :
    ([⟨0, 0, 47, some 50⟩, ⟨0, 0, 99, some 50⟩] : List RiverReading).Perm
        [⟨0, 0, 99, some 50⟩, ⟨0, 0, 47, some 50⟩] ∧
    assessRoadStatus 0 0 0 0
        [⟨0, 0, 47, some 50⟩, ⟨0, 0, 99, some 50⟩] = RoadStatus.NEAR_FLOOD ∧
    assessRoadStatus 0 0 0 0
        [⟨0, 0, 99, some 50⟩, ⟨0, 0, 47, some 50⟩] = RoadStatus.UNDER_FLOOD := by
  have hAu : ¬ underCond 0 0 0 0 ⟨0, 0, 47, some 50⟩ := by
    rintro ⟨-, hlevel⟩
    rw [show jsOr (some 50) 0 = 50 by norm_num [jsOr]] at hlevel
    norm_num at hlevel
  have hAn : nearCond 0 0 0 0 ⟨0, 0, 47, some 50⟩ := by
    refine ⟨Or.inl ?_, ?_⟩
    · rw [haversine_self]; norm_num
    · rw [show jsOr (some 50) 0 = 50 by norm_num [jsOr]]; norm_num
  have hBu : underCond 0 0 0 0 ⟨0, 0, 99, some 50⟩ := by
    refine ⟨Or.inl ?_, ?_⟩
    · rw [haversine_self]; norm_num
    · rw [show jsOr (some 50) 0 = 50 by norm_num [jsOr]]; norm_num
  refine ⟨List.Perm.swap _ _ _, ?_, ?_⟩
  · rw [assessRoadStatus_eq_loop]
    unfold roadStatusLoop
    rw [if_neg hAu, if_pos hAn]
  · rw [assessRoadStatus_eq_loop]
    unfold roadStatusLoop
    rw [if_pos hBu]

/-- C5 amended: while the exact non-SAFE status can depend on the order of the
readings, the SAFE verdict cannot: for any permutation of the reading list,
`assessRoadStatus` returns SAFE on one list exactly when it does on the
other. -/
theorem assessRoadStatus_safe_perm (startLat startLong endLat endLong : ℝ)
    (rs rs' : List RiverReading) (h : rs.Perm rs') :
    (assessRoadStatus startLat startLong endLat endLong rs = RoadStatus.SAFE ↔
      assessRoadStatus startLat startLong endLat endLong rs' = RoadStatus.SAFE) := by
  rw [assessRoadStatus_eq_loop, assessRoadStatus_eq_loop,
    roadStatusLoop_safe_iff, roadStatusLoop_safe_iff]
  constructor
  · intro hall river hmem
    exact hall river (h.mem_iff.mpr hmem)
  · intro hall river hmem
    exact hall river (h.mem_iff.mp hmem)

/-- Witness for the amended C5 theorem on a two-element reading list and its
swap. -/
theorem assessRoadStatus_safe_perm_witness :
    (assessRoadStatus 0 0 0 0
        [⟨0, 0, 1, some 50⟩, ⟨0, 0, 2, some 50⟩] = RoadStatus.SAFE ↔
      assessRoadStatus 0 0 0 0
        [⟨0, 0, 2, some 50⟩, ⟨0, 0, 1, some 50⟩] = RoadStatus.SAFE) :=
  assessRoadStatus_safe_perm 0 0 0 0 _ _ (List.Perm.swap _ _ _)

/-- Haversine distance from a query point to a reading's position, the
expression `haversine(latitude, longitude, river.latitude, river.longitude)`
recurring in `getClosestRiverLevel`. -/
def havTo (latitude longitude : ℝ) (river : RiverReading) : ℝ :=
  haversine latitude longitude river.latitude river.longitude

/-- One iteration of the `for (const river of riverLevels)` minimum-distance
scan of `getClosestRiverLevel`: the running pair is replaced only on a strictly
smaller distance, so earlier candidates win ties. -/
def closestStep (latitude longitude : ℝ) (acc : RiverReading × ℝ)
    (river : RiverReading) : RiverReading × ℝ :=
  if havTo latitude longitude river < acc.2 then (river, havTo latitude longitude river)
  else acc

/-- `getClosestRiverLevel` from `floodService.ts` lines 50-72.  The parameter
`riverLevels` models the result of `storage.getRiverLevelsByArea`; the scan is
initialised with the head of the list and its distance and then runs over the
whole list, exactly as in the source. -/
def getClosestRiverLevel (latitude longitude : ℝ)
    (riverLevels : List RiverReading) : Option (RiverReading × ℝ) :=
  match riverLevels with
  | [] => none
  | closestRiver :: _ =>
    some (riverLevels.foldl (closestStep latitude longitude)
      (closestRiver, havTo latitude longitude closestRiver))

lemma closestFold_spec (latitude longitude : ℝ) :
    ∀ (l : List RiverReading) (b : RiverReading) (m : ℝ),
      ∃ w, l.foldl (closestStep latitude longitude) (b, m) = w ∧
        ((w = (b, m) ∧ ∀ r ∈ l, m ≤ havTo latitude longitude r) ∨
          (∃ pre post, l = pre ++ w.1 :: post ∧
            w.2 = havTo latitude longitude w.1 ∧ w.2 < m ∧
            (∀ r ∈ pre, w.2 < havTo latitude longitude r) ∧
            (∀ r ∈ post, w.2 ≤ havTo latitude longitude r))) := by
  intro l
  induction l with
  | nil =>
    intro b m
    exact ⟨(b, m), rfl, Or.inl ⟨rfl, by simp⟩⟩
  | cons r l ih =>
    intro b m
    by_cases hlt : havTo latitude longitude r < m
    · have hstep : closestStep latitude longitude (b, m) r =
          (r, havTo latitude longitude r) := if_pos hlt
      obtain ⟨w, hw, hcases⟩ := ih r (havTo latitude longitude r)
      refine ⟨w, by rw [List.foldl_cons, hstep, hw], ?_⟩
      rcases hcases with ⟨hwe, hmin⟩ | ⟨pre, post, hdec, hwd, hwlt, hpre, hpost⟩
      · refine Or.inr ⟨[], l, ?_, ?_, ?_, by simp, ?_⟩
        · simp [hwe]
        · simp [hwe]
        · simpa [hwe] using hlt
        · intro x hx
          simpa [hwe] using hmin x hx
      · refine Or.inr ⟨r :: pre, post, by rw [hdec]; rfl, hwd, lt_trans hwlt hlt, ?_, hpost⟩
        intro x hx
        rcases List.mem_cons.mp hx with rfl | hx'
        · exact hwlt
        · exact hpre x hx'
    · have hstep : closestStep latitude longitude (b, m) r = (b, m) := if_neg hlt
      obtain ⟨w, hw, hcases⟩ := ih b m
      refine ⟨w, by rw [List.foldl_cons, hstep, hw], ?_⟩
      rcases hcases with ⟨hwe, hmin⟩ | ⟨pre, post, hdec, hwd, hwlt, hpre, hpost⟩
      · refine Or.inl ⟨hwe, ?_⟩
        intro x hx
        rcases List.mem_cons.mp hx with rfl | hx'
        · exact not_lt.mp hlt
        · exact hmin x hx'
      · refine Or.inr ⟨r :: pre, post, by rw [hdec]; rfl, hwd,
          hwlt, ?_, hpost⟩
        intro x hx
        rcases List.mem_cons.mp hx with rfl | hx'
        · exact lt_of_lt_of_le hwlt (not_lt.mp hlt)
        · exact hpre x hx'

/-- C8: on a non-empty candidate list, `getClosestRiverLevel` returns a
reading together with its own haversine distance to the query point, that
distance is minimal among all candidates, and every candidate strictly before
the returned one in iteration order is strictly farther: the first of the
equal-minimal candidates wins. -/
theorem getClosestRiverLevel_min_first (latitude longitude : ℝ)
    (r0 : RiverReading) (rest : List RiverReading) :
    ∃ w pre post,
      getClosestRiverLevel latitude longitude (r0 :: rest) = some w ∧
      r0 :: rest = pre ++ w.1 :: post ∧
      w.2 = havTo latitude longitude w.1 ∧
      (∀ r ∈ r0 :: rest, w.2 ≤ havTo latitude longitude r) ∧
      (∀ r ∈ pre, w.2 < havTo latitude longitude r) := by
  obtain ⟨w, hw, hcases⟩ :=
    closestFold_spec latitude longitude (r0 :: rest) r0 (havTo latitude longitude r0)
  have hres : getClosestRiverLevel latitude longitude (r0 :: rest) = some w := by
    simp only [getClosestRiverLevel]
    rw [hw]
  rcases hcases with ⟨hwe, hmin⟩ | ⟨pre, post, hdec, hwd, hwlt, hpre, hpost⟩
  · refine ⟨w, [], rest, hres, by simp [hwe], by simp [hwe], ?_, by simp⟩
    intro r hr
    simp only [hwe]
    exact hmin r hr
  · refine ⟨w, pre, post, hres, hdec, hwd, ?_, hpre⟩
    intro r hr
    rw [hdec] at hr
    rcases List.mem_append.mp hr with hr' | hr'
    · exact le_of_lt (hpre r hr')
    · rcases List.mem_cons.mp hr' with rfl | hr''
      · exact le_of_eq hwd
      · exact hpost r hr''

/-- Witness for C8 on a singleton candidate list. -/
theorem getClosestRiverLevel_min_first_witness :
    ∃ w pre post,
      getClosestRiverLevel 0 0 [⟨0, 0, 10, none⟩] = some w ∧
      ([⟨0, 0, 10, none⟩] : List RiverReading) = pre ++ w.1 :: post ∧
      w.2 = havTo 0 0 w.1 ∧
      (∀ r ∈ ([⟨0, 0, 10, none⟩] : List RiverReading), w.2 ≤ havTo 0 0 r) ∧
      (∀ r ∈ pre, w.2 < havTo 0 0 r) :=
  getClosestRiverLevel_min_first 0 0 ⟨0, 0, 10, none⟩ []

/-- The fixed table of named river coordinates in
`getRiverNameByLocation` (insertion order of the source object). -/
def riverCoordinates : List ((ℝ × ℝ) × String) :=
  [((17.385044, 78.486671), "Musi River"),
    ((18.520407, 73.856255), "Mula River"),
    ((19.076090, 72.877426), "Mithi River"),
    ((12.971599, 77.594566), "Vrishabhavathi River")]

/-- `getRiverNameByLocation` from `floodService.ts`: linear minimum-distance
scan over the fixed table, starting from `Infinity` (modelled as `none`) and
"Unknown River". -/
def getRiverNameByLocation (latitude longitude : ℝ) : String :=
  (riverCoordinates.foldl
    (fun (acc : Option ℝ × String) entry =>
      match acc.1 with
      | none => (some (haversine latitude longitude entry.1.1 entry.1.2), entry.2)
      | some minDistance =>
        if haversine latitude longitude entry.1.1 entry.1.2 < minDistance then
          (some (haversine latitude longitude entry.1.1 entry.1.2), entry.2)
        else acc)
    (none, "Unknown River")).2

/-- The structured result of `assessFloodRisk`; `none` models JavaScript
`null`. -/
structure RiskAssessment where
  riskLevel : RiskLevel
  waterLevel : ℝ
  thresholdLevel : Option ℝ
  distance : Option ℝ
  riverName : Option String

/-- `assessFloodRisk` from `floodService.ts` lines 77-107: find the closest
river; on `null` return the graceful zero-state, otherwise classify with
`criticalThreshold || level - 5` as threshold and attach the resolved river
name. -/
def assessFloodRisk (latitude longitude : ℝ)
    (riverLevels : List RiverReading) : RiskAssessment :=
  match getClosestRiverLevel latitude longitude riverLevels with
  | none =>
    { riskLevel := RiskLevel.LOW
      waterLevel := 0
      thresholdLevel := some 0
      distance := none
      riverName := none }
  | some (riverLevel, distance) =>
    { riskLevel := predictFloodRisk riverLevel.level
        (jsOr riverLevel.criticalThreshold (riverLevel.level - 5)) distance
      waterLevel := riverLevel.level
      thresholdLevel := riverLevel.criticalThreshold
      distance := some distance
      riverName := some (getRiverNameByLocation riverLevel.latitude riverLevel.longitude) }

/-- C7: when the area query returns no reading, `assessFloodRisk` returns the
graceful zero-state — risk LOW, water level 0, threshold level 0, null
distance, null river name — and (being a total function) raises no error. -/
theorem assessFloodRisk_no_river_zero_state (latitude longitude : ℝ) :
    assessFloodRisk latitude longitude [] =
      { riskLevel := RiskLevel.LOW
        waterLevel := 0
        thresholdLevel := some 0
        distance := none
        riverName := none } := rfl

/-- Formatting of a road into a map route in `getSafeRoutes` (part_004
variant): same id, name and status, path from start point to end point. -/
def formatRoute (road : Road) : RouteSegment :=
  { id := road.id
    name := road.name
    status := road.status
    path := [(road.startLat, road.startLong), (road.endLat, road.endLong)] }

/-- The `safeRoads/cautionRoads/floodedRoads` categorisation of
`getSafeRoutes` concatenated in priority order: SAFE, then NEAR_FLOOD, then
UNDER_FLOOD (the `routes` array in the source). -/
def categorizeRoutes (allRoads : List Road) : List RouteSegment :=
  (allRoads.filter (fun road => road.status == RoadStatus.SAFE)).map formatRoute ++
    (allRoads.filter (fun road => road.status == RoadStatus.NEAR_FLOOD)).map formatRoute ++
      (allRoads.filter (fun road => road.status == RoadStatus.UNDER_FLOOD)).map formatRoute

/-- The connector scan of `getSafeRoutes`: linear minimum-distance search for
the candidate road whose projected endpoint is closest to the query point,
starting from `minDist = Infinity` (modelled as `none`) and `allRoads[0]`. -/
def closestBy (qLat qLong : ℝ) (proj : Road → ℝ × ℝ) (init : Road)
    (candidates : List Road) : Road × Option ℝ :=
  candidates.foldl
    (fun acc road =>
      match acc.2 with
      | none => (road, some (haversine qLat qLong (proj road).1 (proj road).2))
      | some minDist =>
        if haversine qLat qLong (proj road).1 (proj road).2 < minDist then
          (road, some (haversine qLat qLong (proj road).1 (proj road).2))
        else acc)
    (init, none)

/-- The `minStartDist < 10` / `minEndDist < 10` connector test, with `none`
standing for JavaScript `Infinity`. -/
def withinConnDist (x : Road × Option ℝ) : Prop :=
  match x.2 with
  | some minDist => minDist < 10
  | none => False

/-- `getSafeRoutes` from `src/unnamed/part_004` lines 195-305.  The parameter
`allRoads` models the result of `storage.getRoadsByArea` over the midpoint
area.  With no roads a direct SAFE route is synthesized; otherwise roads are
emitted in SAFE, NEAR_FLOOD, UNDER_FLOOD order, a SAFE "Start Connector" is
prepended (`routes.unshift`) when the nearest candidate start point is within
10 km, and a SAFE "End Connector" is appended (`routes.push`) when the nearest
candidate end point is within 10 km. -/
def getSafeRoutes (startLat startLong endLat endLong : ℝ)
    (allRoads : List Road) : List RouteSegment :=
  match allRoads with
  | [] =>
    [{ id := 1000
       name := "Direct Route"
       status := RoadStatus.SAFE
       path := [(startLat, startLong), (endLat, endLong)] }]
  | first :: _ =>
    let safeRoads := allRoads.filter (fun road => road.status == RoadStatus.SAFE)
    let routes := categorizeRoutes allRoads
    if routes.length > 0 then
      let candidates := if safeRoads.length > 0 then safeRoads else allRoads
      let closestStart :=
        closestBy startLat startLong (fun road => (road.startLat, road.startLong))
          first candidates
      let closestEnd :=
        closestBy endLat endLong (fun road => (road.endLat, road.endLong))
          first candidates
      let withStart :=
        if withinConnDist closestStart then
          { id := 1001
            name := "Start Connector"
            status := RoadStatus.SAFE
            path := [(startLat, startLong),
              (closestStart.1.startLat, closestStart.1.startLong)] } :: routes
        else routes
      if withinConnDist closestEnd then
        withStart ++
          [{ id := 1002
             name := "End Connector"
             status := RoadStatus.SAFE
             path := [(closestEnd.1.endLat, closestEnd.1.endLong), (endLat, endLong)] }]
      else withStart
    else routes

/-- The priority order the spec ranks routes by: a segment may only be
followed by segments of equal or higher danger rank, so a sorted list has all
SAFE segments before all NEAR_FLOOD segments before all UNDER_FLOOD ones. -/
def routePriority (a b : RouteSegment) : Prop :=
  statusRank a.status ≤ statusRank b.status

/-- A route list is ranked when it is sorted by `routePriority`. -/
def RankedRoutes (routes : List RouteSegment) : Prop :=
  List.Sorted routePriority routes

lemma sorted_of_total {l : List RouteSegment}
    (h : ∀ x ∈ l, ∀ y ∈ l, routePriority x y) : List.Sorted routePriority l := by
  induction l with
  | nil => exact List.sorted_nil
  | cons a l ih =>
    refine List.sorted_cons.mpr ⟨?_, ?_⟩
    · intro b hb
      exact h a (List.mem_cons_self a l) b (List.mem_cons_of_mem a hb)
    · exact ih fun x hx y hy =>
        h x (List.mem_cons_of_mem a hx) y (List.mem_cons_of_mem a hy)

lemma mem_statusBlock {st : RoadStatus} {roads : List Road} {seg : RouteSegment}
    (h : seg ∈ (roads.filter (fun road => road.status == st)).map formatRoute) :
    seg.status = st := by
  rcases List.mem_map.mp h with ⟨road, hmem, rfl⟩
  have hf : (road.status == st) = true := (List.mem_filter.mp hmem).2
  exact eq_of_beq hf

lemma sorted_append_parts {l₁ l₂ : List RouteSegment}
    (h₁ : List.Sorted routePriority l₁) (h₂ : List.Sorted routePriority l₂)
    (h : ∀ x ∈ l₁, ∀ y ∈ l₂, routePriority x y) :
    List.Sorted routePriority (l₁ ++ l₂) :=
  List.pairwise_append.mpr ⟨h₁, h₂, h⟩

lemma ranked_categorize (allRoads : List Road) :
    RankedRoutes (categorizeRoutes allRoads) := by
  unfold RankedRoutes categorizeRoutes
  refine sorted_append_parts (sorted_append_parts ?_ ?_ ?_) ?_ ?_
  · refine sorted_of_total fun x hx y hy => ?_
    unfold routePriority
    rw [mem_statusBlock hx, mem_statusBlock hy]
  · refine sorted_of_total fun x hx y hy => ?_
    unfold routePriority
    rw [mem_statusBlock hx, mem_statusBlock hy]
  · intro x hx y hy
    unfold routePriority
    rw [mem_statusBlock hx, mem_statusBlock hy]
    decide
  · refine sorted_of_total fun x hx y hy => ?_
    unfold routePriority
    rw [mem_statusBlock hx, mem_statusBlock hy]
  · intro x hx y hy
    unfold routePriority
    rw [mem_statusBlock hy]
    rcases List.mem_append.mp hx with hx' | hx' <;>
      rw [mem_statusBlock hx'] <;> decide

lemma cons_safe_sorted {seg : RouteSegment} (hseg : seg.status = RoadStatus.SAFE)
    {l : List RouteSegment} (hl : List.Sorted routePriority l) :
    List.Sorted routePriority (seg :: l) := by
  refine List.sorted_cons.mpr ⟨?_, hl⟩
  intro b _
  unfold routePriority
  rw [hseg]
  exact Nat.zero_le _

/-- C6: with no roads in the queried area, `getSafeRoutes` returns exactly one
synthetic SAFE route whose path is exactly the start point followed by the end
point, instead of failing. -/
theorem getSafeRoutes_empty_direct (startLat startLong endLat endLong : ℝ) :
    getSafeRoutes startLat startLong endLat endLong [] =
      [{ id := 1000
         name := "Direct Route"
         status := RoadStatus.SAFE
         path := [(startLat, startLong), (endLat, endLong)] }] := rfl

/-- C4 counterexample: a single UNDER_FLOOD road whose endpoints coincide with
the query's start and end point.  Both connectors are synthesized, and the
SAFE "End Connector" is appended after the UNDER_FLOOD segment, so the
returned list is SAFE, UNDER_FLOOD, SAFE — not ranked. -/
theorem getSafeRoutes_ranked_cex :
    ¬ RankedRoutes (getSafeRoutes 0 0 0 0
      [⟨1, "Flooded Road", RoadStatus.UNDER_FLOOD, 0, 0, 0, 0⟩]) := by
  intro hsorted
  have heval : getSafeRoutes 0 0 0 0
      [⟨1, "Flooded Road", RoadStatus.UNDER_FLOOD, 0, 0, 0, 0⟩] =
      [{ id := 1001
         name := "Start Connector"
         status := RoadStatus.SAFE
         path := [((0 : ℝ), (0 : ℝ)), ((0 : ℝ), (0 : ℝ))] },
       { id := 1
         name := "Flooded Road"
         status := RoadStatus.UNDER_FLOOD
         path := [((0 : ℝ), (0 : ℝ)), ((0 : ℝ), (0 : ℝ))] },
       { id := 1002
         name := "End Connector"
         status := RoadStatus.SAFE
         path := [((0 : ℝ), (0 : ℝ)), ((0 : ℝ), (0 : ℝ))] }] := by
    have hbeqS : (RoadStatus.UNDER_FLOOD == RoadStatus.SAFE) = false := rfl
    have hbeqN : (RoadStatus.UNDER_FLOOD == RoadStatus.NEAR_FLOOD) = false := rfl
    have hbeqU : (RoadStatus.UNDER_FLOOD == RoadStatus.UNDER_FLOOD) = true := rfl
    norm_num [getSafeRoutes, categorizeRoutes, formatRoute, closestBy, withinConnDist,
      haversine_self, List.filter_cons, hbeqS, hbeqN, hbeqU]
  rw [heval] at hsorted
  have h2 := (List.sorted_cons.mp hsorted).2
  have h3 := (List.sorted_cons.mp h2).1 _ (List.mem_singleton.mpr rfl)
  simp [routePriority, statusRank] at h3

/-- C4 amended: the list returned by `getSafeRoutes` is its ranked core —
all SAFE segments, then all NEAR_FLOOD segments, then all UNDER_FLOOD
segments, optionally preceded by the SAFE "Start Connector", which preserves
the ranking — optionally followed by one trailing SAFE "End Connector"
segment, which is appended at the very end and therefore breaks the global
ranking whenever a non-SAFE segment is present. -/
theorem getSafeRoutes_ranked_decomp (startLat startLong endLat endLong : ℝ)
    (allRoads : List Road) :
    ∃ main tail,
      getSafeRoutes startLat startLong endLat endLong allRoads = main ++ tail ∧
      RankedRoutes main ∧
      (tail = [] ∨ ∃ seg, tail = [seg] ∧ seg.status = RoadStatus.SAFE ∧
        seg.name = "End Connector") := by
  cases allRoads with
  | nil =>
    refine ⟨[{ id := 1000
               name := "Direct Route"
               status := RoadStatus.SAFE
               path := [(startLat, startLong), (endLat, endLong)] }], [],
      by simp [getSafeRoutes], ?_, Or.inl rfl⟩
    exact List.sorted_singleton _
  | cons first rest =>
    simp only [getSafeRoutes]
    by_cases h1 : (categorizeRoutes (first :: rest)).length > 0
    · rw [if_pos h1]
      by_cases hsl :
        (List.filter (fun road => road.status == RoadStatus.SAFE) (first :: rest)).length > 0
      all_goals first
        | rw [if_pos hsl]
        | rw [if_neg hsl]
      all_goals split_ifs with hE hS
      all_goals first
        | exact ⟨_ :: categorizeRoutes (first :: rest), [_], rfl,
            cons_safe_sorted rfl (ranked_categorize _), Or.inr ⟨_, rfl, rfl, rfl⟩⟩
        | exact ⟨categorizeRoutes (first :: rest), [_], rfl,
            ranked_categorize _, Or.inr ⟨_, rfl, rfl, rfl⟩⟩
        | exact ⟨_ :: categorizeRoutes (first :: rest), [], (List.append_nil _).symm,
            cons_safe_sorted rfl (ranked_categorize _), Or.inl rfl⟩
        | exact ⟨categorizeRoutes (first :: rest), [], (List.append_nil _).symm,
            ranked_categorize _, Or.inl rfl⟩
    · rw [if_neg h1]
      exact ⟨categorizeRoutes (first :: rest), [], (List.append_nil _).symm,
        ranked_categorize _, Or.inl rfl⟩

/-- Witness for the amended C4 theorem at the empty road list. -/
theorem getSafeRoutes_ranked_decomp_witness :
    ∃ main tail,
      getSafeRoutes 0 0 0 0 [] = main ++ tail ∧
      RankedRoutes main ∧
      (tail = [] ∨ ∃ seg, tail = [seg] ∧ seg.status = RoadStatus.SAFE ∧
        seg.name = "End Connector") :=
  getSafeRoutes_ranked_decomp 0 0 0 0 []

end

end FloodSafeGuard
